import Mathlib

/-!
A shallow embedding of `tests/trustyai/drift/utils.py` from the
opendatahub-tests repository, together with proofs about the behaviour of its
helpers: the retried inference submission (`send_inference_request`), the
observation-count parser (`get_trustyai_number_of_observations`), the
eventual-consistency polling waits, and the metric verification helpers.

Third-party behaviour that the module leans on is embedded according to the
libraries it imports:
* `requests`: `HTTPError` (raised by `Response.raise_for_status` for statuses
  in `[400, 600)`) is a subclass of `RequestException`; `Response.__bool__`
  returns `ok`, i.e. `status_code < 400`.
* `tenacity`: the `@retry` decorator with `stop=stop_after_attempt(n)` and
  `retry=retry_if_exception_type(T)` re-runs the wrapped function while the
  raised exception is an instance of `T`; once the stop condition holds
  (attempt number at least `n`, checked after a failed attempt) it raises
  `RetryError` wrapping the last attempt, because the code does not pass
  `reraise=True`.  Exceptions outside `T` propagate immediately.
* `timeout_sampler.TimeoutSampler`: iterating yields `func()` while wall-clock
  time remains, and raises `TimeoutExpiredError` once the timeout elapses.
-/

namespace DriftUtils

/-- The Python exceptions that can surface from the drift test utilities.
`connectionError` stands for the transport-level `requests` exceptions
(`ConnectionError`, `Timeout`, ...); `httpError` is `requests.HTTPError` as
raised by `Response.raise_for_status`; `retryError` is `tenacity.RetryError`,
which wraps the exception of the last attempt; `indexError`, `keyError`,
`typeError` and `attributeError` are the Python builtins raised while
indexing or parsing JSON; `unboundLocalError` is the `UnboundLocalError`
raised by reading a local variable before assignment (its message text varies
across Python versions, so it carries none); `timeoutExpired` is the
`TimeoutExpiredError` of the `timeout_sampler` package;
`metricValidationError` is the module's own `MetricValidationError` class.
The `eid` fields distinguish distinct exception objects of the same class. -/
inductive PyErr where
  | connectionError (eid : Nat)
  | httpError (status : Nat) (eid : Nat)
  | retryError (last : PyErr)
  | unboundLocalError
  | indexError (msg : String)
  | keyError (msg : String)
  | typeError (msg : String)
  | attributeError (msg : String)
  | timeoutExpired
  | metricValidationError (msg : String)
deriving DecidableEq, Repr

/-- Python `isinstance(e, requests.RequestException)`.  In the `requests` library the
transport-level errors and `HTTPError` (the exception that
`Response.raise_for_status` raises for a non-2xx error status) are both
subclasses of `RequestException`. -/
def PyErr.isRequestException : PyErr → Bool
  | .connectionError _ => true
  | .httpError _ _ => true
  | _ => false

/-- A parsed JSON document, as produced by `response.json()` /
`json.loads(response.text)`.  Numeric values in the bodies the module reads
are integers (observation counts, batch sizes). -/
inductive JValue where
  | null
  | bool (b : Bool)
  | num (n : Int)
  | str (s : String)
  | arr (xs : List JValue)
  | obj (fields : List (String × JValue))
deriving Repr

mutual
/-- Python `==` on parsed JSON values (`True == 1`; a dict compares equal to a
dict with the same key/value pairs — the module only ever compares strings and
numbers, where field order does not matter). -/
def pyEq : JValue → JValue → Bool
  | .null, .null => true
  | .bool a, .bool b => a == b
  | .bool a, .num n => (if a then (1 : Int) else 0) == n
  | .num n, .bool a => n == (if a then (1 : Int) else 0)
  | .num a, .num b => a == b
  | .str a, .str b => a == b
  | .arr a, .arr b => pyEqList a b
  | .obj a, .obj b => pyEqObj a b
  | _, _ => false

/-- Elementwise Python `==` on lists. -/
def pyEqList : List JValue → List JValue → Bool
  | [], [] => true
  | x :: xs, y :: ys => pyEq x y && pyEqList xs ys
  | _, _ => false

/-- Fieldwise Python `==` on objects. -/
def pyEqObj : List (String × JValue) → List (String × JValue) → Bool
  | [], [] => true
  | (k, v) :: xs, (l, w) :: ys => k == l && pyEq v w && pyEqObj xs ys
  | _, _ => false
end

/-- Python truthiness of a parsed JSON value: `None`, `False`, `0`, `""`,
`[]` and `{}` are falsy, everything else is truthy. -/
def truthy : JValue → Bool
  | .null => false
  | .bool b => b
  | .num n => n != 0
  | .str s => s != ""
  | .arr xs => !xs.isEmpty
  | .obj fs => !fs.isEmpty

/-- Key lookup in the field list of a JSON object (keys of a Python dict are
unique, so the first match is the match). -/
def jlookup (fs : List (String × JValue)) (k : String) : Option JValue :=
  (fs.find? (fun p => p.1 == k)).map (fun p => p.2)

/-- A `requests.Response`, reduced to the pieces the module reads: the status
code and the JSON document parsed from its body (the responses in these tests
carry valid JSON). -/
structure Response where
  statusCode : Nat
  jsonBody : JValue
deriving Repr

/-- Python `bool(response)`: `requests.Response.__bool__` returns `self.ok`, which is
true exactly when `status_code < 400`. -/
def Response.toBool (r : Response) : Bool := r.statusCode < 400

/-! ## `send_inference_request` (utils.py lines 96-146) -/

/-- The outcome of one `requests.post` call to the inference endpoint: either
a transport-level exception, or a response with a status code.  `eid`
distinguishes the distinct exception/response objects of different attempts. -/
inductive PostOutcome where
  | transportError (eid : Nat)
  | response (status : Nat) (eid : Nat)
deriving DecidableEq, Repr

/-- The body of `_make_request`: posts the batch once and, on a response,
calls `response.raise_for_status()`, which raises `HTTPError` when
`400 <= status < 600`.  The `except requests.RequestException` handler first
runs `LOGGER.error(response.content)`.  When the POST itself raised (a
transport-level error), the local `response` was never assigned, so that line
raises `UnboundLocalError`, which REPLACES the transport exception; when
`raise_for_status` raised, `response` is bound, the handler logs, and the
final bare `raise` re-raises the `HTTPError` unchanged.  `none` means the
attempt returned normally. -/
def makeRequestOnce : PostOutcome → Option PyErr
  | .transportError _ => some .unboundLocalError
  | .response status eid =>
      if 400 ≤ status ∧ status < 600 then some (.httpError status eid) else none

/-- The observable result of a retried call: how many attempts were made, and
whether the call returned normally or raised. -/
structure RunResult where
  attempts : Nat
  outcome : Except PyErr Unit
deriving Repr

/-- The `tenacity.retry` loop with `stop=stop_after_attempt(maxAttempts)` and
`retry=retry_if_exception_type(requests.RequestException)`.  Attempts are
numbered from 1.  After a failed attempt, an exception that is not a
`RequestException` propagates immediately; otherwise the stop condition
(`attemptNum ≥ maxAttempts`) is consulted, and on stop tenacity raises
`RetryError` wrapping the last exception — the decorator in utils.py does not
pass `reraise=True`, so the default wrapping behaviour is in force.  `fuel`
bounds the recursion; starting it at `maxAttempts` it never runs out before
the stop condition holds. -/
def tenacityLoop (attempt : Nat → Option PyErr) (maxAttempts : Nat) :
    Nat → Nat → RunResult
  | attemptNum, 0 =>
    match attempt attemptNum with
    | none => ⟨attemptNum, .ok ()⟩
    | some e =>
      if ¬ e.isRequestException then ⟨attemptNum, .error e⟩
      else ⟨attemptNum, .error (.retryError e)⟩
  | attemptNum, f + 1 =>
    match attempt attemptNum with
    | none => ⟨attemptNum, .ok ()⟩
    | some e =>
      if ¬ e.isRequestException then ⟨attemptNum, .error e⟩
      else if maxAttempts ≤ attemptNum then ⟨attemptNum, .error (.retryError e)⟩
      else tenacityLoop attempt maxAttempts (attemptNum + 1) f

/-- The function `send_inference_request`: runs `_make_request` under the tenacity
decorator with `stop_after_attempt(max_retries)`.  The trailing
`except requests.RequestException: LOGGER.error(...); raise` re-raises
whatever reaches it unchanged (and a `RetryError` is not a
`RequestException`, so it passes through that handler untouched as well):
the overall result is exactly the loop's result.  `post n` is the outcome of
the `requests.post` call of attempt `n`. -/
def send_inference_request (post : Nat → PostOutcome) (maxRetries : Nat) :
    RunResult :=
  tenacityLoop (fun n => makeRequestOnce (post n)) maxRetries 1 maxRetries

/-- The attempt counter of the tenacity loop never goes below its starting
attempt number. -/
theorem tenacityLoop_le_attempts (attempt : Nat → Option PyErr)
    (maxAttempts : Nat) :
    ∀ fuel attemptNum, attemptNum ≤ (tenacityLoop attempt maxAttempts attemptNum fuel).attempts := by
  intro fuel
  induction fuel with
  | zero =>
    intro attemptNum
    unfold tenacityLoop
    cases attempt attemptNum
    · simp
    · simp only
      split <;> simp
  | succ f ih =>
    intro attemptNum
    unfold tenacityLoop
    cases attempt attemptNum with
    | none => simp
    | some e =>
      simp only
      split
      · simp
      · split
        · simp
        · exact le_trans (Nat.le_succ attemptNum) (ih (attemptNum + 1))

/-- Claim C1 (code_bug evidence): when the POST of the first attempt raises a
transport-level `RequestException`, the handler's first statement
`LOGGER.error(response.content)` reads the local `response`, which the failed
POST never assigned, and raises `UnboundLocalError`.  That is not a
`RequestException`, so tenacity does not retry it and the outer
`except requests.RequestException` does not catch it: with `max_retries = 5`
the run makes exactly 1 attempt and the caller receives `UnboundLocalError` —
neither the `max_retries` attempts nor the re-raised final
`RequestException` that the claim and the function's own docstring
(`Raises: RequestException: If all retry attempts fail`) describe. -/
theorem send_inference_request_transport_error_not_retried :
    send_inference_request (fun n => PostOutcome.transportError n) 5 =
      ⟨1, .error .unboundLocalError⟩ := by
  rfl

/-- Claim C2 counterexample: every attempt returns HTTP 500, so
`raise_for_status` raises `HTTPError` — a subclass of
`requests.RequestException` — and the request IS retried: with
`max_retries = 3` the run makes 3 attempts and ends in `RetryError` around
the last `HTTPError`, refuting the claim that an HTTP error status converted
to a raised error by `raise_for_status` never triggers a retry. -/
theorem http_error_status_is_retried :
    send_inference_request (fun n => PostOutcome.response 500 n) 3 =
      ⟨3, .error (.retryError (.httpError 500 3))⟩ := by
  rfl

/-- Claim C2 (amended): the retry policy is the reverse of the claim, in both
directions.  A non-2xx response whose status is converted to a raised error
by `raise_for_status` raises `requests.HTTPError` — a subclass of
`requests.RequestException` — and DOES trigger a retry: whenever the first
attempt's POST returns a status in `[400, 600)` and `max_retries ≥ 2`, a
second attempt is made.  A transport-level exception does NOT trigger a
retry: the handler's `LOGGER.error(response.content)` reads the unbound
local `response` and replaces the transport exception with
`UnboundLocalError`, which tenacity does not retry, so the run ends after
that single attempt whatever `max_retries` is. -/
theorem http_error_retried_transport_error_not (post post2 : Nat → PostOutcome)
    (status eid eid2 maxRetries maxRetries2 : Nat)
    (hpost : post 1 = .response status eid)
    (hlo : 400 ≤ status) (hhi : status < 600) (hmax : 2 ≤ maxRetries)
    (hpost2 : post2 1 = .transportError eid2) :
    2 ≤ (send_inference_request post maxRetries).attempts ∧
    send_inference_request post2 maxRetries2 =
      ⟨1, .error .unboundLocalError⟩ := by
  constructor
  · obtain ⟨k, rfl⟩ := Nat.exists_eq_add_of_le' hmax
    unfold send_inference_request
    show 2 ≤ (tenacityLoop _ (k + 2) 1 (k + 1 + 1)).attempts
    unfold tenacityLoop
    rw [hpost]
    have hmk : makeRequestOnce (PostOutcome.response status eid) =
        some (PyErr.httpError status eid) := by
      unfold makeRequestOnce
      exact if_pos ⟨hlo, hhi⟩
    rw [hmk]
    simp only [PyErr.isRequestException, not_true, if_false, Bool.not_true,
      Bool.false_eq_true, if_neg (by omega : ¬ k + 2 ≤ 1)]
    exact tenacityLoop_le_attempts _ (k + 2) (k + 1) 2
  · unfold send_inference_request
    cases maxRetries2 with
    | zero =>
      simp only [tenacityLoop, hpost2]
      rfl
    | succ f =>
      simp only [tenacityLoop, hpost2]
      rfl

/-- Witness for the amended Claim C2 theorem at concrete inputs: one POST
returning HTTP 404 with two attempts allowed leads to a second attempt, while
a transport error on the first POST ends the run at one attempt with
`UnboundLocalError` even with four attempts allowed. -/
theorem http_error_retried_transport_error_not_witness :
    2 ≤ (send_inference_request (fun n => PostOutcome.response 404 n) 2).attempts ∧
    send_inference_request (fun _ => PostOutcome.transportError 7) 4 =
      ⟨1, .error .unboundLocalError⟩ :=
  http_error_retried_transport_error_not (fun n => PostOutcome.response 404 n)
    (fun _ => PostOutcome.transportError 7) 404 1 7 2 4
    rfl (by decide) (by decide) (by decide) rfl

/-- Python `==` on two strings is string equality. -/
theorem pyEq_str_str (a b : String) : pyEq (.str a) (.str b) = (a == b) := by
  rw [pyEq]

/-- Reduction of `pure` in the `Except` monad. -/
theorem exceptPure {ε α : Type} (a : α) :
    (pure a : Except ε α) = Except.ok a := rfl

/-- Reduction of a monadic bind on a normally returned `Except` value. -/
theorem exceptOkBind {ε α β : Type} (a : α) (f : α → Except ε β) :
    (Except.ok a : Except ε α) >>= f = f a := rfl

/-- Reduction of a monadic bind on a raised `Except` value. -/
theorem exceptErrorBind {ε α β : Type} (e : ε) (f : α → Except ε β) :
    (Except.error e : Except ε α) >>= f = Except.error e := rfl

/-! ## `get_trustyai_number_of_observations` (utils.py lines 149-172) -/

/-- Python `d.get(k, default)`: key lookup with a default on a dict,
`AttributeError` on any other value (including `None`, a list, a string). -/
def pyGet (v : JValue) (k : String) (dflt : JValue) : Except PyErr JValue :=
  match v with
  | .obj fs => .ok ((jlookup fs k).getD dflt)
  | _ => .error (.attributeError "get")

/-- Python `str(e)` for the exceptions that can escape the parsing block of
`get_trustyai_number_of_observations` (for a `KeyError`, `str` produces the
repr of its argument, i.e. the message in quotes). -/
def PyErr.pyStr : PyErr → String
  | .keyError m => "\x27" ++ m ++ "\x27"
  | .typeError m => m
  | .attributeError m => m
  | .indexError m => m
  | _ => ""

/-- The `except Exception as e: raise TypeError(f"Failed to parse response:
{str(e)}")` wrapper around the try-block of
`get_trustyai_number_of_observations`. -/
def wrapParseError (r : Except PyErr JValue) : Except PyErr JValue :=
  match r with
  | .ok v => .ok v
  | .error e => .error (.typeError ("Failed to parse response: " ++ e.pyStr))

/-- The try-block of `get_trustyai_number_of_observations`, acting on the
parsed metadata JSON: return 0 for a falsy document; otherwise take the first
key (`next(iter(metadata_json))`), fetch its model, raise `KeyError` when the
model is falsy, then read `model.get("data", {}).get("observations")` and
return it when truthy, raising `KeyError` otherwise.  A truthy non-dict
document fails in Python as well: `.get` on a string or list raises
`AttributeError`, and a number or `True` is not iterable (`TypeError`). -/
def observationsFromMetadata (mj : JValue) : Except PyErr JValue :=
  if ¬ truthy mj then .ok (.num 0)
  else
    match mj with
    | .obj [] => .ok (.num 0)
    | .obj ((k, model) :: _) =>
      if ¬ truthy model then
        .error (.keyError ("Model data not found for key: " ++ k))
      else do
        let dataV ← pyGet model "data" (.obj [])
        let obs ← pyGet dataV "observations" .null
        if truthy obs then pure obs
        else .error (.keyError "Observations data not found in model metadata")
    | .str _ => .error (.attributeError "str object has no attribute get")
    | .arr _ => .error (.attributeError "list object has no attribute get")
    | _ => .error (.typeError "object is not iterable")

/-- The function `get_trustyai_number_of_observations`, as a function of the `/info`
response it fetches: a falsy response object (`Response.__bool__`, i.e.
`status_code ≥ 400`) yields 0 before any parsing; otherwise the parsed body
is examined and any exception of the try-block is re-wrapped into a
`TypeError`. -/
def get_trustyai_number_of_observations (resp : Response) : Except PyErr JValue :=
  if ¬ resp.toBool then .ok (.num 0)
  else wrapParseError (observationsFromMetadata resp.jsonBody)

/-- The first model entry's nested `data.observations` path is absent: the
model either has no `data` key at all (so the `{}` default is used), or its
`data` value is a dict without an `observations` key. -/
def observationsPathAbsent : JValue → Bool
  | .obj fs =>
    match jlookup fs "data" with
    | none => true
    | some (.obj dfs) => (jlookup dfs "observations").isNone
    | some _ => false
  | _ => false

/-- When the first model entry is a truthy dict whose `data.observations`
path is absent, the try-block raises the `KeyError` of utils.py line 170. -/
theorem observationsFromMetadata_path_absent (k : String)
    (mfs rest : List (String × JValue)) (hm : truthy (.obj mfs))
    (habs : observationsPathAbsent (.obj mfs)) :
    observationsFromMetadata (.obj ((k, .obj mfs) :: rest)) =
      .error (.keyError "Observations data not found in model metadata") := by
  have h1 : truthy (JValue.obj ((k, JValue.obj mfs) :: rest)) = true := by
    simp [truthy]
  simp only [observationsFromMetadata]
  rw [if_neg (not_not_intro h1), if_neg (not_not_intro hm)]
  simp only [observationsPathAbsent] at habs
  simp only [pyGet]
  rcases hd : jlookup mfs "data" with _ | dv
  · simp [exceptOkBind, truthy, jlookup]
  · rw [hd] at habs
    rcases dv with _ | b | n | s | xs | dfs <;> simp at habs
    simp [exceptOkBind, truthy, habs]

/-- Claim C5: `get_trustyai_number_of_observations` returns 0 when the
response object is falsy (error status) or when its parsed JSON body is
falsy, and raises the locally re-wrapped parse error — a `TypeError`, not a
raw `KeyError` — when the first model entry is a truthy dict whose nested
`data.observations` path is absent. -/
theorem get_number_of_observations_spec (resp : Response) :
    (¬ resp.toBool → get_trustyai_number_of_observations resp = .ok (.num 0)) ∧
    (resp.toBool → ¬ truthy resp.jsonBody →
      get_trustyai_number_of_observations resp = .ok (.num 0)) ∧
    (∀ k mfs rest, resp.toBool →
      resp.jsonBody = .obj ((k, .obj mfs) :: rest) → truthy (.obj mfs) →
      observationsPathAbsent (.obj mfs) →
      get_trustyai_number_of_observations resp =
        .error (.typeError ("Failed to parse response: " ++
          "\x27Observations data not found in model metadata\x27"))) := by
  refine ⟨fun h => ?_, fun h hb => ?_, fun k mfs rest h hb hm habs => ?_⟩
  · simp [get_trustyai_number_of_observations, h]
  · simp [get_trustyai_number_of_observations, h, wrapParseError,
      observationsFromMetadata, hb]
  · rw [get_trustyai_number_of_observations, if_neg (not_not_intro h), hb,
      observationsFromMetadata_path_absent k mfs rest hm habs]
    rfl

/-- Witness for Claim C5 at concrete inputs: an HTTP 500 response yields 0, a
200 response with an empty JSON object yields 0, and a 200 response whose
single model entry lacks the `data.observations` path raises the re-wrapped
`TypeError`. -/
theorem get_number_of_observations_spec_witness :
    get_trustyai_number_of_observations ⟨500, .null⟩ = .ok (.num 0) ∧
    get_trustyai_number_of_observations ⟨200, .obj []⟩ = .ok (.num 0) ∧
    get_trustyai_number_of_observations
        ⟨200, .obj [("model-a", .obj [("metrics", .num 3)])]⟩ =
      .error (.typeError ("Failed to parse response: " ++
        "\x27Observations data not found in model metadata\x27")) :=
  ⟨(get_number_of_observations_spec ⟨500, .null⟩).1 (by decide),
   (get_number_of_observations_spec ⟨200, .obj []⟩).2.1 (by decide) (by decide),
   (get_number_of_observations_spec ⟨200, .obj [("model-a", .obj [("metrics", .num 3)])]⟩).2.2
     "model-a" [("metrics", .num 3)] [] (by decide) rfl (by decide) (by decide)⟩

/-- Claim C10: when the metadata is a truthy document whose first model entry
has `data.observations` present with value `0`, the walrus-guarded truthiness
test `if observations := model.get("data", {}).get("observations")` fails, so
the function does not return the count 0 — it raises the same re-wrapped
parse error as when the observations field is missing, making a zero count
indistinguishable from an absent `data.observations` path. -/
theorem get_number_of_observations_zero_count_raises (resp : Response)
    (k : String) (mfs dfs : List (String × JValue)) (rest : List (String × JValue))
    (hok : resp.toBool) (hbody : resp.jsonBody = .obj ((k, .obj mfs) :: rest))
    (hdata : jlookup mfs "data" = some (.obj dfs))
    (hobs : jlookup dfs "observations" = some (.num 0)) :
    get_trustyai_number_of_observations resp =
      .error (.typeError ("Failed to parse response: " ++
        "\x27Observations data not found in model metadata\x27")) ∧
    get_trustyai_number_of_observations resp ≠ .ok (.num 0) := by
  have hmfs : mfs ≠ [] := by
    intro h
    rw [h] at hdata
    simp [jlookup] at hdata
  have htr : truthy (JValue.obj ((k, JValue.obj mfs) :: rest)) = true := by
    simp [truthy]
  have htm : truthy (JValue.obj mfs) = true := by
    simp [truthy, hmfs]
  have hres : get_trustyai_number_of_observations resp =
      .error (.typeError ("Failed to parse response: " ++
        "\x27Observations data not found in model metadata\x27")) := by
    rw [get_trustyai_number_of_observations, if_neg (not_not_intro hok), hbody]
    simp only [observationsFromMetadata]
    rw [if_neg (not_not_intro htr), if_neg (not_not_intro htm)]
    simp only [pyGet]
    rw [hdata]
    simp [exceptOkBind, truthy, hobs, wrapParseError, PyErr.pyStr]
  exact ⟨hres, by simp [hres]⟩

/-- Witness for Claim C10 at a concrete input: a 200 response whose single
model entry carries `data.observations = 0` raises the re-wrapped parse error
instead of returning 0. -/
theorem get_number_of_observations_zero_count_raises_witness :
    get_trustyai_number_of_observations
        ⟨200, .obj [("model-a", .obj [("data", .obj [("observations", .num 0)])])]⟩ =
      .error (.typeError ("Failed to parse response: " ++
        "\x27Observations data not found in model metadata\x27")) ∧
    get_trustyai_number_of_observations
        ⟨200, .obj [("model-a", .obj [("data", .obj [("observations", .num 0)])])]⟩ ≠
      .ok (.num 0) :=
  get_number_of_observations_zero_count_raises
    ⟨200, .obj [("model-a", .obj [("data", .obj [("observations", .num 0)])])]⟩
    "model-a" [("data", .obj [("observations", .num 0)])]
    [("observations", .num 0)] [] (by decide) rfl rfl rfl

/-! ## Polling waits (utils.py lines 175-189 and 230-277) -/

/-- Modelled from the spec: `tests/trustyai/constants.py` is not among the
sources at hand; the module imports `MODELMESH_SERVING` from it as the value
of the `modelmesh-service` label that identifies ModelMesh serving pods. -/
def MODELMESH_SERVING : String := "modelmesh-serving"

/-- The iteration of `timeout_sampler.TimeoutSampler` as consumed by the
`for sample in samples: if sample: return` loops of the two wait functions:
while wall-clock time remains the sampler yields `f` and the loop returns on
the first true sample; once the timeout elapses the sampler raises
`TimeoutExpiredError`.  `fuel` is the number of iterations the wall clock
admits within `wait_timeout`, and `i` counts the poll instants. -/
def timeoutSamplerRun (f : Nat → Bool) : Nat → Nat → Except PyErr Unit
  | _, 0 => .error .timeoutExpired
  | i, fuel + 1 => if f i then .ok () else timeoutSamplerRun f (i + 1) fuel

/-- The function `wait_for_trustyai_to_register_inference_request`: fetches the
observation count ONCE (from the `/info` response at instant 0), then polls
the closure `lambda: current_observations == expected_observations`, whose
captured `current_observations` never changes.  `infoAt i` is the `/info`
response the service would return at poll instant `i`; only instant 0 is
ever consulted. -/
def wait_for_trustyai_to_register_inference_request (infoAt : Nat → Response)
    (expected : Int) (fuel : Nat) : Except PyErr Unit := do
  let current ← get_trustyai_number_of_observations (infoAt 0)
  timeoutSamplerRun (fun _ => pyEq current (.num expected)) 0 fuel

/-- A container of a ModelMesh pod, reduced to what
`_check_pods_ready_with_env` reads: the names of its environment variables
(`env` may be `None`). -/
structure Container where
  env : Option (List String)
deriving Repr

/-- A pod as read by `_check_pods_ready_with_env`: the value of its
`modelmesh-service` label, its containers, whether its status is `Running`,
and whether reading `pod.instance` raises `NotFoundError` because the pod was
deleted meanwhile. -/
structure PodM where
  modelmeshServiceLabel : Option String
  containers : List Container
  running : Bool
  deleted : Bool
deriving Repr

/-- The test `container.env is not None and any(env.name == "MM_PAYLOAD_PROCESSORS"
for env in container.env)`. -/
def containerHasPayloadEnv (c : Container) : Bool :=
  match c.env with
  | none => false
  | some names => names.any (fun n => n == "MM_PAYLOAD_PROCESSORS")

/-- Whether some container of the pod carries the `MM_PAYLOAD_PROCESSORS`
environment variable (the inner `for container in ...` loop with its
`break`). -/
def podHasPayloadEnv (p : PodM) : Bool := p.containers.any containerHasPayloadEnv

/-- The `for pod in modelmesh_pods` loop of `_check_pods_ready_with_env`:
a deleted pod is skipped (`except NotFoundError: continue`); a pod that has
the env var but is not running makes the whole check return `False` at once;
otherwise `found_pod_with_env` accumulates. -/
def checkPodsLoop : List PodM → Bool → Bool
  | [], found => found
  | p :: rest, found =>
    if p.deleted then checkPodsLoop rest found
    else
      let hasEnv := podHasPayloadEnv p
      if hasEnv ∧ ¬ p.running then false
      else checkPodsLoop rest (found || hasEnv)

/-- The function `_check_pods_ready_with_env`: restrict to pods whose `modelmesh-service`
label equals `MODELMESH_SERVING`, then run the accumulating loop starting
from `found_pod_with_env = False`. -/
def checkPodsReadyWithEnv (pods : List PodM) : Bool :=
  checkPodsLoop
    (pods.filter (fun p => p.modelmeshServiceLabel == some MODELMESH_SERVING))
    false

/-- The function `wait_for_modelmesh_pods_registered_by_trustyai`: polls
`_check_pods_ready_with_env` under a `TimeoutSampler`; `podsAt i` is the pod
list the cluster would return at poll instant `i`. -/
def wait_for_modelmesh_pods_registered_by_trustyai (podsAt : Nat → List PodM)
    (fuel : Nat) : Except PyErr Unit :=
  timeoutSamplerRun (fun i => checkPodsReadyWithEnv (podsAt i)) 0 fuel

/-- A sampler polling a predicate that never becomes true raises
`TimeoutExpiredError` once the timeout elapses. -/
theorem timeoutSamplerRun_never_true (f : Nat → Bool) (hf : ∀ i, f i = false) :
    ∀ fuel i, timeoutSamplerRun f i fuel = .error .timeoutExpired := by
  intro fuel
  induction fuel with
  | zero => intro i; rfl
  | succ n ih =>
    intro i
    rw [timeoutSamplerRun, hf i]
    simpa using ih (i + 1)

/-- Claim C3 counterexample: two concrete runs in which the polled condition
is false at every instant before the timeout — the registered count stays 7
while 8 is expected, and the cluster never has a ModelMesh pod — end with the
sampler raising `TimeoutExpiredError`; neither wait returns normally, so
timeout expiry is NOT indistinguishable from success. -/
theorem polling_timeout_not_silent :
    wait_for_trustyai_to_register_inference_request
        (fun _ => ⟨200, .obj [("model-a", .obj [("data", .obj [("observations", .num 7)])])]⟩)
        8 5 = .error .timeoutExpired ∧
    wait_for_modelmesh_pods_registered_by_trustyai (fun _ => []) 7 =
      .error .timeoutExpired ∧
    (Except.error PyErr.timeoutExpired : Except PyErr Unit) ≠ .ok () := by
  refine ⟨?_, ?_, by simp⟩
  · rfl
  · rfl

/-- Claim C3 (amended): for both polling waits, if the polled condition never
becomes true before the wall-clock timeout elapses, the `TimeoutSampler`
raises `TimeoutExpiredError` — the waits do not return normally, so timeout
expiry is distinguishable from success. -/
theorem polling_timeout_raises (infoAt : Nat → Response) (expected : Int)
    (podsAt : Nat → List PodM) (fuel fuel2 : Nat) (v : JValue)
    (hobs : get_trustyai_number_of_observations (infoAt 0) = .ok v)
    (hne : pyEq v (.num expected) = false)
    (hpods : ∀ i, checkPodsReadyWithEnv (podsAt i) = false) :
    wait_for_trustyai_to_register_inference_request infoAt expected fuel =
      .error .timeoutExpired ∧
    wait_for_modelmesh_pods_registered_by_trustyai podsAt fuel2 =
      .error .timeoutExpired := by
  constructor
  · rw [wait_for_trustyai_to_register_inference_request, hobs, exceptOkBind]
    exact timeoutSamplerRun_never_true _ (fun _ => hne) fuel 0
  · exact timeoutSamplerRun_never_true _ hpods fuel2 0

/-- Witness for the amended Claim C3 theorem at concrete inputs: an
observation count of 3 polled against an expectation of 4, and a pod list
with a single deleted pod, both time out with `TimeoutExpiredError`. -/
theorem polling_timeout_raises_witness :
    wait_for_trustyai_to_register_inference_request
        (fun _ => ⟨200, .obj [("m", .obj [("data", .obj [("observations", .num 3)])])]⟩)
        4 2 = .error .timeoutExpired ∧
    wait_for_modelmesh_pods_registered_by_trustyai
        (fun _ => [⟨some MODELMESH_SERVING, [], false, true⟩]) 2 =
      .error .timeoutExpired :=
  polling_timeout_raises
    (fun _ => ⟨200, .obj [("m", .obj [("data", .obj [("observations", .num 3)])])]⟩)
    4 (fun _ => [⟨some MODELMESH_SERVING, [], false, true⟩]) 2 2 (.num 3)
    rfl rfl (fun _ => rfl)

/-- Claim C4: the result of `wait_for_trustyai_to_register_inference_request`
depends only on the single observation count fetched before the loop starts:
if the pre-fetched count compares equal to `expected_observations` the wait
returns on the first sample, and otherwise it polls a constant-false
predicate until the timeout, whatever counts the service would report at
later instants (the statement constrains `infoAt` at instant 0 only). -/
theorem wait_uses_only_prefetched_count (infoAt : Nat → Response)
    (expected : Int) (fuel : Nat) (v : JValue)
    (hobs : get_trustyai_number_of_observations (infoAt 0) = .ok v) :
    (pyEq v (.num expected) = true → 1 ≤ fuel →
      wait_for_trustyai_to_register_inference_request infoAt expected fuel =
        .ok ()) ∧
    (pyEq v (.num expected) = false →
      wait_for_trustyai_to_register_inference_request infoAt expected fuel =
        .error .timeoutExpired) := by
  constructor
  · intro heq hfuel
    obtain ⟨n, rfl⟩ := Nat.exists_eq_add_of_le' hfuel
    rw [wait_for_trustyai_to_register_inference_request, hobs, exceptOkBind]
    show timeoutSamplerRun _ 0 (n + 1) = .ok ()
    rw [timeoutSamplerRun, heq]
    rfl
  · intro hne
    rw [wait_for_trustyai_to_register_inference_request, hobs, exceptOkBind]
    exact timeoutSamplerRun_never_true _ (fun _ => hne) fuel 0

/-- Witness for C4 at concrete inputs: with a pre-fetched count of 5, an
expectation of 5 returns on the first sample and an expectation of 6 times
out, for the same later service states. -/
theorem wait_uses_only_prefetched_count_witness :
    wait_for_trustyai_to_register_inference_request
        (fun _ => ⟨200, .obj [("m", .obj [("data", .obj [("observations", .num 5)])])]⟩)
        5 3 = .ok () ∧
    wait_for_trustyai_to_register_inference_request
        (fun _ => ⟨200, .obj [("m", .obj [("data", .obj [("observations", .num 5)])])]⟩)
        6 3 = .error .timeoutExpired :=
  ⟨(wait_uses_only_prefetched_count
      (fun _ => ⟨200, .obj [("m", .obj [("data", .obj [("observations", .num 5)])])]⟩)
      5 3 (.num 5) rfl).1 rfl (by decide),
   (wait_uses_only_prefetched_count
      (fun _ => ⟨200, .obj [("m", .obj [("data", .obj [("observations", .num 5)])])]⟩)
      6 3 (.num 5) rfl).2 rfl⟩

/-! ## `verify_trustyai_metric_request` (utils.py lines 280-323) -/

/-- Python `d[k]` on a parsed JSON value: key lookup raising `KeyError` when
the key is absent from a dict, `TypeError` when the value is not
subscriptable by a string. -/
def pyIndex (v : JValue) (k : String) : Except PyErr JValue :=
  match v with
  | .obj fs =>
    match jlookup fs k with
    | some w => .ok w
    | none => .error (.keyError k)
  | _ => .error (.typeError "object is not subscriptable")

/-- Lowercasing of one character as Python `str.lower` performs it on the
ASCII letters appearing in metric names. -/
def lowerChar : Char → Char
  | 'A' => 'a' | 'B' => 'b' | 'C' => 'c' | 'D' => 'd' | 'E' => 'e' | 'F' => 'f'
  | 'G' => 'g' | 'H' => 'h' | 'I' => 'i' | 'J' => 'j' | 'K' => 'k' | 'L' => 'l'
  | 'M' => 'm' | 'N' => 'n' | 'O' => 'o' | 'P' => 'p' | 'Q' => 'q' | 'R' => 'r'
  | 'S' => 's' | 'T' => 't' | 'U' => 'u' | 'V' => 'v' | 'W' => 'w' | 'X' => 'x'
  | 'Y' => 'y' | 'Z' => 'z' | c => c

/-- Characterwise lowercasing of a character list. -/
def lowerList : List Char → List Char
  | [] => []
  | c :: cs => lowerChar c :: lowerList cs

/-- Python `s.lower()` on a string. -/
def pyStrLower (s : String) : String := ⟨lowerList s.data⟩

/-- Python `v.lower()`: lowercases a string, `AttributeError` on any other
value. -/
def pyLower (v : JValue) : Except PyErr String :=
  match v with
  | .str s => .ok (pyStrLower s)
  | _ => .error (.attributeError "lower")

/-- Python `str(v)` as used when interpolating a response field into an
f-string message (the fields interpolated by the module are strings or
numbers in these tests; container reprs are not needed). -/
def pyFormatStr : JValue → String
  | .str s => s
  | .num n => toString n
  | .bool true => "True"
  | .bool false => "False"
  | .null => "None"
  | .arr _ => ""
  | .obj _ => ""

/-- The `errors` list built by `verify_trustyai_metric_request`, in source
order: status code, `timestamp`, `type`, `value`, `specificDefinition`,
`name` (the RESPONSE name is lowercased and compared to the requested
`metric_name` verbatim), `id`, `thresholds`.  Subscripting
`response_data[...]` aborts with a `KeyError` when a field is missing. -/
def metricRequestErrors (resp : Response) (metricName : String) :
    Except PyErr (List String) := do
  let rd := resp.jsonBody
  let sc0 := resp.statusCode
  let e0 : List String :=
    if sc0 != 200 then [s!"Unexpected status code: {sc0}"]
    else []
  let ts ← pyIndex rd "timestamp"
  let e1 := e0 ++ if pyEq ts (.str "") then ["Timestamp is empty"] else []
  let ty ← pyIndex rd "type"
  let e2 := e1 ++ if !pyEq ty (.str "metric") then ["Incorrect type"] else []
  let v ← pyIndex rd "value"
  let e3 := e2 ++ if pyEq v (.str "") then ["Value is empty"] else []
  let sd ← pyIndex rd "specificDefinition"
  let e4 := e3 ++ if pyEq sd (.str "") then ["Specific definition is empty"] else []
  let nm ← pyIndex rd "name"
  let low ← pyLower nm
  let e5 := e4 ++
    if low != metricName then
      ["Wrong name: " ++ pyFormatStr nm ++ ", expected: " ++ metricName]
    else []
  let idv ← pyIndex rd "id"
  let e6 := e5 ++ if pyEq idv (.str "") then ["ID is empty"] else []
  let th ← pyIndex rd "thresholds"
  let e7 := e6 ++ if pyEq th (.str "") then ["Thresholds are empty"] else []
  pure e7

/-- The function `verify_trustyai_metric_request`: collects the violations and raises a
single `MetricValidationError` joining them with newlines when the list is
non-empty. -/
def verify_trustyai_metric_request (resp : Response) (metricName : String) :
    Except PyErr Unit := do
  let errors ← metricRequestErrors resp metricName
  if errors.isEmpty then pure ()
  else .error (.metricValidationError (String.intercalate "\n" errors))

/-- The metric response body shape used by the verification claims, with the
fields in the order the service returns them. -/
def metricResponseBody (ts ty v sd nm idv : JValue)
    (thresholds : Option JValue) : JValue :=
  .obj ([("timestamp", ts), ("type", ty), ("value", v),
    ("specificDefinition", sd), ("name", nm), ("id", idv)] ++
    (match thresholds with
     | some th => [("thresholds", th)]
     | none => []))

/-- Claim C6 counterexample: a 200 response in which every required field is
populated with a valid value but the `thresholds` field is MISSING makes
`response_data["thresholds"]` raise a raw `KeyError("thresholds")` — not a
`MetricValidationError` with message "Thresholds are empty." as the claim
states. -/
theorem missing_thresholds_raises_keyerror :
    verify_trustyai_metric_request
        ⟨200, metricResponseBody (.str "2024-05-01T10:00:00") (.str "metric")
          (.str "0.71") (.str "MeanShift calculates ...") (.str "meanshift")
          (.str "fa2b0410") none⟩ "meanshift" =
      .error (.keyError "thresholds") := by
  rfl

/-- Claim C6 (amended): when the `thresholds` field is PRESENT but equal to
the empty string, and every other field is populated with a valid value under
a 200 status, `verify_trustyai_metric_request` raises a
`MetricValidationError` containing exactly the one message
"Thresholds are empty"; a missing `thresholds` field instead raises a raw
`KeyError`. -/
theorem empty_thresholds_single_violation (ts v sd nm idv metricName : String)
    (hts : ts ≠ "") (hv : v ≠ "") (hsd : sd ≠ "") (hid : idv ≠ "")
    (hnm : pyStrLower nm = metricName) :
    verify_trustyai_metric_request
        ⟨200, metricResponseBody (.str ts) (.str "metric") (.str v) (.str sd)
          (.str nm) (.str idv) (some (.str ""))⟩ metricName =
      .error (.metricValidationError "Thresholds are empty") := by
  have hts' : (ts == "") = false := by simpa using hts
  have hv' : (v == "") = false := by simpa using hv
  have hsd' : (sd == "") = false := by simpa using hsd
  have hid' : (idv == "") = false := by simpa using hid
  have hnm' : (pyStrLower nm != metricName) = false := by simp [hnm]
  simp [verify_trustyai_metric_request, metricRequestErrors, metricResponseBody,
    pyIndex, jlookup, pyLower, pyEq, exceptOkBind, hts', hv', hsd', hid', hnm',
    hnm, String.intercalate]
  rfl

/-- Witness for the amended Claim C6 theorem at a concrete input. -/
theorem empty_thresholds_single_violation_witness :
    verify_trustyai_metric_request
        ⟨200, metricResponseBody (.str "2024-05-01T10:00:00") (.str "metric")
          (.str "0.71") (.str "MeanShift calculates ...") (.str "meanshift")
          (.str "fa2b0410") (some (.str ""))⟩ "meanshift" =
      .error (.metricValidationError "Thresholds are empty") :=
  empty_thresholds_single_violation "2024-05-01T10:00:00" "0.71"
    "MeanShift calculates ..." "meanshift" "fa2b0410" "meanshift"
    (by decide) (by decide) (by decide) (by decide) rfl

/-- Claim C7 counterexample: the requested name and the response name are the
very same string "Meanshift" — so certainly equal up to letter case — yet the
check `response_data["name"].lower() != metric_name` compares the LOWERCASED
response name to the requested name verbatim and records a name-mismatch
violation. -/
theorem name_match_not_case_insensitive :
    verify_trustyai_metric_request
        ⟨200, metricResponseBody (.str "2024-05-01T10:00:00") (.str "metric")
          (.str "0.71") (.str "MeanShift calculates ...") (.str "Meanshift")
          (.str "fa2b0410") (some (.str "[0.1, 0.9]"))⟩ "Meanshift" =
      .error (.metricValidationError
        "Wrong name: Meanshift, expected: Meanshift") := by
  rfl

/-- Claim C7 (amended): the name check lowercases only the RESPONSE name and
compares it to the requested name verbatim: with all other fields valid, the
violation list is empty exactly when `name.lower() == metric_name`, so the
match is case-insensitive in the response name only, and a requested name
containing an uppercase letter is flagged even when the two names are equal
up to case. -/
theorem name_check_lowercases_response_only (ts v sd nm idv th metricName : String)
    (hts : ts ≠ "") (hv : v ≠ "") (hsd : sd ≠ "") (hid : idv ≠ "") (hth : th ≠ "") :
    metricRequestErrors
        ⟨200, metricResponseBody (.str ts) (.str "metric") (.str v) (.str sd)
          (.str nm) (.str idv) (some (.str th))⟩ metricName =
      .ok (if pyStrLower nm = metricName then []
           else ["Wrong name: " ++ nm ++ ", expected: " ++ metricName]) := by
  have hts' : (ts == "") = false := by simpa using hts
  have hv' : (v == "") = false := by simpa using hv
  have hsd' : (sd == "") = false := by simpa using hsd
  have hid' : (idv == "") = false := by simpa using hid
  have hth' : (th == "") = false := by simpa using hth
  by_cases hnm : pyStrLower nm = metricName
  · have hnm' : (pyStrLower nm != metricName) = false := by simp [hnm]
    simp [metricRequestErrors, metricResponseBody, pyIndex, jlookup, pyLower,
      pyEq, exceptOkBind, hts', hv', hsd', hid', hth', hnm', hnm]
  · have hnm' : (pyStrLower nm != metricName) = true := by simp [hnm]
    simp [metricRequestErrors, metricResponseBody, pyIndex, jlookup, pyLower,
      pyEq, exceptOkBind, hts', hv', hsd', hid', hth', hnm', hnm, pyFormatStr]

/-- Witness for the amended Claim C7 theorem at a concrete input: requested
name "meanshift" in lowercase, response name "MeanShift" — equal up to case —
produces no violation. -/
theorem name_check_lowercases_response_only_witness :
    metricRequestErrors
        ⟨200, metricResponseBody (.str "t0") (.str "metric") (.str "0.71")
          (.str "sd") (.str "MeanShift") (.str "id0") (some (.str "[0.1]"))⟩
        "meanshift" = .ok [] := by
  have h := name_check_lowercases_response_only "t0" "0.71" "sd" "MeanShift"
    "id0" "[0.1]" "meanshift" (by decide) (by decide) (by decide) (by decide)
    (by decide)
  exact h.trans (by rfl)

/-! ## `verify_trustyai_metric_scheduling` (utils.py lines 326-380) -/

/-- Python `len(v)` on a parsed JSON value. -/
def pyLen : JValue → Except PyErr Nat
  | .arr xs => .ok xs.length
  | .str s => .ok s.length
  | .obj fs => .ok fs.length
  | _ => .error (.typeError "object has no len")

/-- Python `v[i]` for a non-negative integer index on a parsed JSON value
(list indexing; `IndexError` past the end). -/
def pyListIndex (v : JValue) (i : Nat) : Except PyErr JValue :=
  match v with
  | .arr xs =>
    match xs.get? i with
    | some x => .ok x
    | none => .error (.indexError "list index out of range")
  | _ => .error (.typeError "object is not subscriptable")

/-- Whether the first character list starts the second one. -/
def listStartsWith : List Char → List Char → Bool
  | [], _ => true
  | _ :: _, [] => false
  | a :: as, b :: bs => a == b && listStartsWith as bs

/-- Whether the first character list occurs contiguously in the second. -/
def listHasSublist (needle : List Char) : List Char → Bool
  | [] => needle.isEmpty
  | c :: cs => listStartsWith needle (c :: cs) || listHasSublist needle cs

/-- Python `k in v` for a string `k`: key test on a dict, membership on a
list, substring test on a string. -/
def pyContains (v : JValue) (k : String) : Except PyErr Bool :=
  match v with
  | .obj fs => .ok ((jlookup fs k).isSome)
  | .arr xs => .ok (xs.any (fun x => pyEq x (.str k)))
  | .str s => .ok (listHasSublist k.data s.data)
  | _ => .error (.typeError "argument is not iterable")

/-- The function `verify_trustyai_metric_scheduling`, as a function of the scheduling
response and the follow-up `/requests` listing response, mirroring the source
order: `requestId`, scheduling status, `timestamp`, listing status, then the
`"requests" not in data or not data["requests"]` guard, the
exactly-one-entry check, and the id comparison; finally the collected
violations are raised together as one `MetricValidationError`. -/
def verify_trustyai_metric_scheduling (schedResp listResp : Response) :
    Except PyErr Unit := do
  let rd := schedResp.jsonBody
  let sc1 := schedResp.statusCode
  let lc1 := listResp.statusCode
  let requestId ← pyIndex rd "requestId"
  let e1 : List String :=
    if pyEq requestId (.str "") then ["Request ID is empty"] else []
  let e2 := e1 ++
    if sc1 != 200 then
      [s!"Unexpected status code: {sc1}"]
    else []
  let ts ← pyIndex rd "timestamp"
  let e3 := e2 ++ if pyEq ts (.str "") then ["Timestamp is empty"] else []
  let gd := listResp.jsonBody
  let e4 := e3 ++
    if lc1 != 200 then
      [s!"Unexpected status code for metrics response: {lc1}"]
    else []
  let hasReqs ← pyContains gd "requests"
  let noReqs ←
    if hasReqs then do
      let reqs ← pyIndex gd "requests"
      pure (!truthy reqs)
    else pure true
  let e5 ←
    if noReqs then pure (e4 ++ ["No requests found in metrics response"])
    else do
      let reqs ← pyIndex gd "requests"
      let n ← pyLen reqs
      if n != 1 then pure (e4 ++ [s!"Expected exactly 1 request, got {n}"])
      else do
        let first ← pyListIndex reqs 0
        let mid ← pyIndex first "id"
        if !pyEq mid requestId then
          pure (e4 ++ ["Request ID mismatch. Expected: " ++
            pyFormatStr requestId ++ ", Got: " ++ pyFormatStr mid])
        else pure e4
  if e5.isEmpty then pure ()
  else .error (.metricValidationError (String.intercalate "\n" e5))

/-- Claim C8: for a scheduling response carrying string `requestId` and
`timestamp` fields and a listing response whose `requests` field is a list of
entries with string ids, `verify_trustyai_metric_scheduling` raises a
`MetricValidationError` exactly when the scheduling response has a non-OK
status, an empty `requestId` or an empty `timestamp`, or the listing has a
non-OK status, or its entry count differs from exactly 1, or the single
entry's id differs from the scheduling `requestId`; when none of these hold
it returns without error. -/
theorem metric_scheduling_validation_iff (rid ts : String) (sc lc : Nat)
    (reqIds : List String) :
    ((∃ msg, verify_trustyai_metric_scheduling
        ⟨sc, .obj [("requestId", .str rid), ("timestamp", .str ts)]⟩
        ⟨lc, .obj [("requests",
          .arr (reqIds.map (fun s => .obj [("id", .str s)])))]⟩ =
        .error (.metricValidationError msg)) ↔
      (rid = "" ∨ sc ≠ 200 ∨ ts = "" ∨ lc ≠ 200 ∨
        (match reqIds with | [m] => m ≠ rid | _ => True))) ∧
    (verify_trustyai_metric_scheduling
        ⟨sc, .obj [("requestId", .str rid), ("timestamp", .str ts)]⟩
        ⟨lc, .obj [("requests",
          .arr (reqIds.map (fun s => .obj [("id", .str s)])))]⟩ =
        .ok () ↔
      ¬ (rid = "" ∨ sc ≠ 200 ∨ ts = "" ∨ lc ≠ 200 ∨
        (match reqIds with | [m] => m ≠ rid | _ => True))) := by
  rcases reqIds with _ | ⟨m, _ | ⟨m2, restIds⟩⟩ <;>
    simp [verify_trustyai_metric_scheduling, pyIndex, jlookup, pyContains,
      pyLen, pyListIndex, pyEq_str_str, truthy, pyFormatStr, exceptOkBind,
      exceptPure] <;>
    split_ifs <;> simp_all

/-- Witness for Claim C8 at concrete inputs: a fully OK run (matching single
entry) returns without error, and the same run with an empty `requestId`
raises a `MetricValidationError`. -/
theorem metric_scheduling_validation_iff_witness :
    verify_trustyai_metric_scheduling
        ⟨200, .obj [("requestId", .str "req-1"), ("timestamp", .str "t1")]⟩
        ⟨200, .obj [("requests", .arr ([ "req-1" ].map (fun s => .obj [("id", .str s)])))]⟩ =
      .ok () ∧
    (∃ msg, verify_trustyai_metric_scheduling
        ⟨200, .obj [("requestId", .str ""), ("timestamp", .str "t1")]⟩
        ⟨200, .obj [("requests", .arr ([ "" ].map (fun s => .obj [("id", .str s)])))]⟩ =
      .error (.metricValidationError msg)) :=
  ⟨((metric_scheduling_validation_iff "req-1" "t1" 200 200 ["req-1"]).2).mpr
    (by simp),
   ((metric_scheduling_validation_iff "" "t1" 200 200 [""]).1).mpr
    (by simp)⟩

/-! ## Expected observation counts (utils.py lines 192-227 and 383-415) -/

/-- The expression `json.loads(data)["inputs"][0]["shape"][0]`: the batch size the module
reads from an inference payload. -/
def batchSizeFromInputs (body : JValue) : Except PyErr JValue := do
  let inputs ← pyIndex body "inputs"
  let first ← pyListIndex inputs 0
  let shape ← pyIndex first "shape"
  pyListIndex shape 0

/-- The expected count for one data batch in
`send_inference_requests_and_verify_trustyai_service` (line 226):
`current_observations + json.loads(data)["inputs"][0]["shape"][0]`, passed as
`expected_observations` to the registration wait. -/
def expectedObservationsAfterSubmission (currentObs : Int) (body : JValue) :
    Except PyErr Int := do
  let b ← batchSizeFromInputs body
  match b with
  | .num n => pure (currentObs + n)
  | _ => .error (.typeError "unsupported operand type for +")

/-- The expected count computed by `verify_upload_data_to_trustyai_service`
(lines 402-405): the pre-upload count plus
`json.loads(data)["request"]["inputs"][0]["shape"][0]`. -/
def expectedObservationsAfterUpload (currentObs : Int) (body : JValue) :
    Except PyErr Int := do
  let req ← pyIndex body "request"
  let b ← batchSizeFromInputs req
  match b with
  | .num n => pure (currentObs + n)
  | _ => .error (.typeError "unsupported operand type for +")

/-- The per-file loop of `send_inference_requests_and_verify_trustyai_service`
(lines 211-227), projected to the sequence of `expected_observations`
arguments it passes to the registration wait: iteration `i` re-fetches the
current count (`obsBefore i` is the count the service reports just before the
i-th submission) and adds the i-th file's batch size. -/
def expectedCountsOfRun (obsBefore : Nat → Int) :
    Nat → List JValue → Except PyErr (List Int)
  | _, [] => .ok []
  | i, body :: rest => do
    let e ← expectedObservationsAfterSubmission (obsBefore i) body
    let es ← expectedCountsOfRun obsBefore (i + 1) rest
    pure (e :: es)

/-- An inference payload whose first input has `shape[0] = b`, with arbitrary
further shape entries, input fields and inputs. -/
def inferenceBody (b : Int) (shapeRest : List JValue)
    (extraFields : List (String × JValue)) (moreInputs : List JValue) : JValue :=
  .obj [("inputs",
    .arr (.obj (("shape", .arr (.num b :: shapeRest)) :: extraFields) :: moreInputs))]

/-- The sequence `start + B, start + 2B, ...` of length `n`. -/
def arithSeq (start B : Int) : Nat → List Int
  | 0 => []
  | n + 1 => (start + B) :: arithSeq (start + B) B n

/-- The last element of a non-empty arithmetic sequence. -/
theorem arithSeq_getLast (B : Int) :
    ∀ (n : Nat) (start : Int),
      (arithSeq start B (n + 1)).getLast? = some (start + (n + 1) * B) := by
  intro n
  induction n with
  | zero =>
    intro start
    simp [arithSeq]
  | succ k ih =>
    intro start
    rw [arithSeq, arithSeq, List.getLast?_cons_cons, ← arithSeq]
    rw [ih (start + B)]
    congr 1
    push_cast
    ring

/-- The run of the submission loop from any starting iteration, when every
batch has size `B` and the service registers each batch before the next
pre-fetch. -/
theorem expectedCountsOfRun_arith (obsBefore : Nat → Int) (B : Int)
    (hstep : ∀ i, obsBefore (i + 1) = obsBefore i + B) :
    ∀ (bodies : List JValue) (i : Nat),
      (∀ body ∈ bodies, batchSizeFromInputs body = .ok (.num B)) →
      expectedCountsOfRun obsBefore i bodies =
        .ok (arithSeq (obsBefore i) B bodies.length) := by
  intro bodies
  induction bodies with
  | nil => intro i _; rfl
  | cons body rest ih =>
    intro i h
    have hb : batchSizeFromInputs body = .ok (.num B) := h body (by simp)
    have hrest : ∀ b ∈ rest, batchSizeFromInputs b = .ok (.num B) :=
      fun b hbm => h b (by simp [hbm])
    simp only [expectedCountsOfRun, expectedObservationsAfterSubmission, hb,
      exceptOkBind, exceptPure, ih (i + 1) hrest]
    rw [List.length_cons, arithSeq, hstep i]

/-- Claim C9: the expected observation count for one data batch equals the
pre-submission count plus the batch size read from the first input's
`shape[0]` — both on the inference path and on the upload path — and over a
run of N submissions of batch size B each, with the service registering each
batch before the next pre-fetch, the sequence of expected counts is
`init + B, init + 2B, ...` and the final expected count equals
`init + N * B`. -/
theorem expected_count_is_prior_plus_batch (cur init B : Int)
    (shapeRest moreInputs : List JValue)
    (extraFields : List (String × JValue)) (obsBefore : Nat → Int)
    (bodies : List JValue)
    (hinit : obsBefore 0 = init)
    (hstep : ∀ i, obsBefore (i + 1) = obsBefore i + B)
    (hbatch : ∀ body ∈ bodies, batchSizeFromInputs body = .ok (.num B)) :
    expectedObservationsAfterSubmission cur
        (inferenceBody B shapeRest extraFields moreInputs) = .ok (cur + B) ∧
    expectedObservationsAfterUpload cur
        (.obj [("request", inferenceBody B shapeRest extraFields moreInputs)]) =
      .ok (cur + B) ∧
    expectedCountsOfRun obsBefore 0 bodies =
      .ok (arithSeq init B bodies.length) ∧
    (∀ n, bodies.length = n + 1 →
      (arithSeq init B bodies.length).getLast? = some (init + (n + 1) * B)) := by
  refine ⟨rfl, rfl, ?_, ?_⟩
  · rw [expectedCountsOfRun_arith obsBefore B hstep bodies 0 hbatch, hinit]
  · intro n hn
    rw [hn]
    exact arithSeq_getLast B n init

/-- Witness for Claim C9 at concrete inputs (the spec's own example): batch
size 10 on top of a current count of 42 yields 52 for both submission paths,
and two consecutive batches of 10 yield expected counts 52 then 62. -/
theorem expected_count_is_prior_plus_batch_witness :
    expectedObservationsAfterSubmission 42 (inferenceBody 10 [] [] []) =
      .ok 52 ∧
    expectedObservationsAfterUpload 42
        (.obj [("request", inferenceBody 10 [] [] [])]) = .ok 52 ∧
    expectedCountsOfRun (fun i => 42 + 10 * (i : Int)) 0
        [inferenceBody 10 [] [] [], inferenceBody 10 [] [] []] =
      .ok [52, 62] := by
  have h := expected_count_is_prior_plus_batch 42 42 10 [] [] []
    (fun i => 42 + 10 * (i : Int))
    [inferenceBody 10 [] [] [], inferenceBody 10 [] [] []]
    (by norm_num)
    (fun i => by push_cast; ring)
    (by
      intro body hb
      rcases List.mem_cons.mp hb with h1 | h1
      · rw [h1]; rfl
      · rcases List.mem_cons.mp h1 with h2 | h2
        · rw [h2]; rfl
        · cases h2)
  refine ⟨h.1, h.2.1, h.2.2.1.trans ?_⟩
  rfl

end DriftUtils
